import Mathlib

/-!
Verification development for `blackbox-fetch`.

The definitions below are a shallow embedding of the Python sources:
  * `src/blackbox_fetch/msp.py` — the MSP frame codec and command catalog;
  * `src/blackbox_fetch/ui/main_window/cls.py` — the background workflow
    (progress reporting and the blackbox file copy phase).
Bytes are modelled as `Nat` with explicit range conditions where the Python
runtime enforces them (a `bytearray` item assignment accepts only values in
`range(0, 256)`).  Serial reads are modelled by consuming a prefix of an
explicit input stream `List Nat`.
-/

namespace BlackboxFetch

/-- `MSPResponse` dataclass from `msp.py`: the decoded response frame.
Field order follows the dataclass. -/
structure MSPResponse where
  msp_code : Nat
  data : List Nat
  length : Nat
  preamble : List Nat
  crc : Nat
deriving DecidableEq, Repr

/-- `MSPResponse.calc_crc`: `crc = length ^ code`, then XOR-folded over the
payload bytes. -/
def MSPResponse.calc_crc (r : MSPResponse) : Nat :=
  r.data.foldl Nat.xor (Nat.xor r.length r.msp_code)

/-- Failure modes of `SerialMSP._send`:
`assertionFailed` is the `assert msp_code < 255`;
`byteOutOfRange` is the `ValueError` a `bytearray` item assignment raises for
a value outside `range(0, 256)` (this is what fires when the payload length
does not fit the length byte, or a payload value is not a byte). -/
inductive SendError where
  | assertionFailed
  | byteOutOfRange
deriving DecidableEq, Repr

/-- `SerialMSP._send`: builds and writes the request frame
`"$M<" | length | code | payload | checksum` where the checksum is the XOR of
length, code and every payload byte.  Returns the bytes written. -/
def SerialMSP_send (msp_code : Nat) (payload : List Nat) : Except SendError (List Nat) :=
  if msp_code < 255 then
    if payload.length < 256 then
      if payload.all (fun v => decide (v < 256)) then
        .ok ([36, 77, 60, payload.length, msp_code] ++ payload ++
             [payload.foldl Nat.xor (Nat.xor payload.length msp_code)])
      else .error .byteOutOfRange
    else .error .byteOutOfRange
  else .error .assertionFailed

/-- Failure modes of `SerialMSP._recv`:
`shortRead` is the `struct.error` raised when a 1-byte read comes back empty
after the serial timeout; `crcMismatch` is the `SerialError('CRC check failed')`
raised when the recomputed checksum disagrees with the trailing byte
(`calculated` is `calc_crc()`, `received` is the trailing byte read). -/
inductive RecvError where
  | shortRead
  | crcMismatch (calculated received : Nat)
deriving DecidableEq, Repr

/-- `SerialMSP._recv`: reads 3 preamble bytes, 1 length byte, 1 code byte,
`length` payload bytes and 1 checksum byte off the stream, in that order; the
preamble bytes are read but never inspected.  Returns the response together
with the unconsumed remainder of the stream. -/
def SerialMSP_recv (stream : List Nat) : Except RecvError MSPResponse × List Nat :=
  match stream with
  | p1 :: p2 :: p3 :: len :: code :: rest =>
    let data := rest.take len
    match rest.drop len with
    | crc :: rest2 =>
      let response : MSPResponse :=
        { msp_code := code, data := data, length := len, preamble := [p1, p2, p3], crc := crc }
      if response.crc = response.calc_crc then (.ok response, rest2)
      else (.error (.crcMismatch response.calc_crc response.crc), rest2)
    | [] => (.error .shortRead, [])
  | _ => (.error .shortRead, [])

/-- `payload_prepare(data, n=16)`: expands every value of `data` into `n / 8`
little-endian bytes, `(val >> i*8) & 255` for `i = 0, ..., n/8 - 1`. -/
def payload_prepare (data : List Nat) (n : Nat) : List Nat :=
  (data.map (fun val => (List.range (n / 8)).map (fun i => (val >>> (i * 8)) &&& 255))).flatten

/-- The `MSPCommand` class: a numeric code, a request payload
(`payload or []`), and the `need_response` flag. -/
structure MSPCommand where
  code : Nat
  payload : List Nat
  need_response : Bool
deriving DecidableEq, Repr

/-- `MSPCommand.make_request`: returns `(code, payload or [])`. -/
def MSPCommand.make_request (c : MSPCommand) : Nat × List Nat :=
  (c.code, c.payload)

def MSP_API_VERSION : MSPCommand := { code := 1, payload := [], need_response := true }

def MSP_FC_VARIANT : MSPCommand := { code := 2, payload := [], need_response := true }

def MSP_REBOOT_MSD : MSPCommand := { code := 68, payload := [2], need_response := false }

def MSP_DATAFLASH_SUMMARY : MSPCommand := { code := 70, payload := [], need_response := true }

def MSP_DATAFLASH_ERASE : MSPCommand := { code := 72, payload := [], need_response := false }

/-- The typed result carried by `MSP_DATAFLASH_SUMMARY`. -/
structure DataflashSummaryResult where
  ready : Bool
  supported : Bool
  sectors : Nat
  total_size : Nat
  used_size : Nat
deriving DecidableEq, Repr

/-- A little-endian `u32` from four bytes, as `struct.unpack('<I', ...)`. -/
def le_u32 (b0 b1 b2 b3 : Nat) : Nat :=
  b0 + 256 * b1 + 65536 * b2 + 16777216 * b3

/-- `MSP_DATAFLASH_SUMMARY.make_response`: `struct.unpack('<BIII', data)`
requires exactly 13 payload bytes (else `struct.error`, modelled as `none`);
`ready = flags & 1 != 0`, `supported = flags & 2 != 0`. -/
def MSP_DATAFLASH_SUMMARY.make_response (data : List Nat) : Option DataflashSummaryResult :=
  match data with
  | [rs, s0, s1, s2, s3, t0, t1, t2, t3, u0, u1, u2, u3] =>
    some { ready := rs &&& 1 != 0
           supported := rs &&& 2 != 0
           sectors := le_u32 s0 s1 s2 s3
           total_size := le_u32 t0 t1 t2 t3
           used_size := le_u32 u0 u1 u2 u3 }
  | _ => none

/-- How one `send_command` call ended:
`raised` — an exception propagated to the caller;
`returnedNone` — fell through with `need_response` false (returns `None`);
`gotResponse r` — `need_response` path, `r` is handed to `make_response`. -/
inductive SendCommandOutcome where
  | raised
  | returnedNone
  | gotResponse (r : MSPResponse)
deriving DecidableEq, Repr

/-- Observable trace of a `SerialMSP.send_command` call: the bytes written
(`none` if `_send` raised before writing), whether `_recv` was invoked, the
unconsumed remainder of the read stream, and how the call ended. -/
structure SendCommandTrace where
  written : Option (List Nat)
  recv_attempted : Bool
  stream_after : List Nat
  outcome : SendCommandOutcome
deriving DecidableEq, Repr

/-- `SerialMSP.send_command`: prepares the payload with `payload_prepare`,
writes the frame with `_send`, then invokes `_recv` unconditionally inside a
`try` block; a receive error is re-raised only when `need_response` is true,
otherwise logged and swallowed.  When `need_response` is true and `_recv`
succeeded, the response is handed to the command's `make_response`. -/
def send_command (command : MSPCommand) (stream : List Nat) : SendCommandTrace :=
  let req := command.make_request
  let payload := payload_prepare req.2 16
  match SerialMSP_send req.1 payload with
  | .error _ =>
    { written := none, recv_attempted := false, stream_after := stream, outcome := .raised }
  | .ok buffer =>
    let recv := SerialMSP_recv stream
    match recv.1 with
    | .error _ =>
      if command.need_response then
        { written := some buffer, recv_attempted := true, stream_after := recv.2,
          outcome := .raised }
      else
        { written := some buffer, recv_attempted := true, stream_after := recv.2,
          outcome := .returnedNone }
    | .ok response =>
      if command.need_response then
        { written := some buffer, recv_attempted := true, stream_after := recv.2,
          outcome := .gotResponse response }
      else
        { written := some buffer, recv_attempted := true, stream_after := recv.2,
          outcome := .returnedNone }

/-! ## Workflow orchestrator (`ui/main_window/cls.py`, class `Background`)

The destination directory is modelled as an association list from file names
to file contents; `iter_blackbox_paths` is modelled as a stream of poll
results (`polls i` is what the `i`-th call would return).  A successful run
is modelled (the `stop` flag stays `False`, so every `checkstop()` call is a
no-op, and the serial phases succeed). -/

/-- A blackbox file: its name (`blackbox_src.name`) and its contents. -/
abbrev FileEntry := String × Nat

/-- The output directory, as a listing of (name, contents). -/
abbrev Dir := List FileEntry

/-- The loop body of `Background.copy_blackbox_files`: for each source file,
copy it to the destination only when `blackbox_dst.exists()` is false, then
add `progress_increment` to `progress_value` and emit it.  Returns the final
directory and the emitted progress values, in order. -/
def copy_loop (files : List FileEntry) (dst : Dir) (progress_value progress_increment : Nat) :
    Dir × List Nat :=
  match files with
  | [] => (dst, [])
  | f :: fs =>
    let dst2 := if (dst.lookup f.1).isSome then dst else dst ++ [f]
    let pv := progress_value + progress_increment
    let rest := copy_loop fs dst2 pv progress_increment
    (rest.1, pv :: rest.2)

/-- `Background.copy_blackbox_files`, given the list of found blackbox paths:
if no paths were found it returns at once (no copy, no progress emitted);
otherwise it copies with `progress_value = 20` and
`progress_increment = int(60 / len(paths))`. -/
def copy_blackbox_files (paths : List FileEntry) (dst : Dir) : Dir × List Nat :=
  if paths.isEmpty then (dst, [])
  else copy_loop paths dst 20 (60 / paths.length)

/-- `Background.run` on a successful run: emits progress 0, reboots the board
into mass storage (no progress emitted), emits 20, runs
`copy_blackbox_files` (which polls `io.iter_blackbox_paths` exactly once,
`polls 0`), emits 80, erases the blackbox (no progress emitted), emits 100.
Returns the final output directory and every progress value emitted, in
order. -/
def Background.run (polls : Nat → List FileEntry) (dst : Dir) : Dir × List Nat :=
  let paths := polls 0
  let copied := copy_blackbox_files paths dst
  (copied.1, 0 :: 20 :: (copied.2 ++ [80, 100]))

/-! ## Helper lemmas -/

/-- Evaluating `SerialMSP_recv` on a stream holding one complete frame. -/
theorem SerialMSP_recv_eval (p1 p2 p3 code crc : Nat) (data : List Nat) :
    SerialMSP_recv (p1 :: p2 :: p3 :: data.length :: code :: (data ++ [crc])) =
      (if crc = (data.foldl Nat.xor (Nat.xor data.length code)) then
         (Except.ok { msp_code := code, data := data, length := data.length,
                      preamble := [p1, p2, p3], crc := crc }, [])
       else
         (Except.error (RecvError.crcMismatch (data.foldl Nat.xor (Nat.xor data.length code)) crc),
          [])) := by
  simp only [SerialMSP_recv, List.take_left, List.drop_left]
  rfl

/-- Evaluating `SerialMSP_send` when the assertion and every byte assignment
succeed. -/
theorem SerialMSP_send_ok (code : Nat) (payload : List Nat)
    (h1 : code < 255) (h2 : payload.length < 256) (h3 : ∀ b ∈ payload, b < 256) :
    SerialMSP_send code payload =
      .ok ([36, 77, 60, payload.length, code] ++ payload ++
           [payload.foldl Nat.xor (Nat.xor payload.length code)]) := by
  have hall : payload.all (fun v => decide (v < 256)) = true :=
    List.all_eq_true.mpr (fun x hx => decide_eq_true (h3 x hx))
  unfold SerialMSP_send
  rw [if_pos h1, if_pos h2, if_pos hall]

/-- XOR with a power of two changes the value: a one-bit flip never fixes. -/
theorem xor_two_pow_ne (c k : Nat) : c ^^^ 2 ^ k ≠ c := by
  intro h
  have h2 : c ^^^ (c ^^^ 2 ^ k) = c ^^^ c := by rw [h]
  rw [← Nat.xor_assoc, Nat.xor_self, Nat.zero_xor] at h2
  exact absurd h2 (Nat.pos_iff_ne_zero.mp (Nat.two_pow_pos k))

/-- Evaluating `send_command` once the request frame was written. -/
theorem send_command_eval (command : MSPCommand) (stream : List Nat) (buf : List Nat)
    (h : SerialMSP_send command.make_request.1
           (payload_prepare command.make_request.2 16) = .ok buf) :
    send_command command stream =
      { written := some buf, recv_attempted := true,
        stream_after := (SerialMSP_recv stream).2,
        outcome :=
          match command.need_response, (SerialMSP_recv stream).1 with
          | false, _ => .returnedNone
          | true, .error _ => .raised
          | true, .ok r => .gotResponse r } := by
  simp only [send_command]
  rw [h]
  rcases hr : SerialMSP_recv stream with ⟨res, rest⟩
  cases res <;> cases hnr : command.need_response <;> simp [hr, hnr]

/-- Unfolding one step of `copy_loop`. -/
theorem copy_loop_cons (f : FileEntry) (fs : List FileEntry) (dst : Dir) (p i : Nat) :
    copy_loop (f :: fs) dst p i =
      ((copy_loop fs (if (dst.lookup f.1).isSome then dst else dst ++ [f]) (p + i) i).1,
       (p + i) ::
         (copy_loop fs (if (dst.lookup f.1).isSome then dst else dst ++ [f]) (p + i) i).2) :=
  rfl

/-- An association-list lookup that succeeds is unaffected by appending. -/
theorem lookup_append_some (d1 d2 : Dir) (name : String) (c : Nat)
    (h : d1.lookup name = some c) : (d1 ++ d2).lookup name = some c := by
  induction d1 with
  | nil => simp [List.lookup] at h
  | cons e rest ih =>
    obtain ⟨k, v⟩ := e
    rw [List.cons_append]
    cases hb : (name == k) <;> simp only [List.lookup, hb] at h ⊢
    · exact ih h
    · exact h

/-- After appending an entry, its name resolves — either to the new entry or
to an entry that was already present. -/
theorem lookup_append_new (d : Dir) (f : FileEntry) :
    (d ++ [f]).lookup f.1 = some f.2 ∨ (∃ c, d.lookup f.1 = some c) := by
  induction d with
  | nil => left; simp [List.lookup]
  | cons e rest ih =>
    obtain ⟨k, v⟩ := e
    cases hb : (f.1 == k)
    · rcases ih with h | ⟨c, hc⟩
      · left
        rw [List.cons_append]
        simp only [List.lookup, hb]
        exact h
      · right
        exact ⟨c, by simp only [List.lookup, hb]; exact hc⟩
    · right
      exact ⟨v, by simp only [List.lookup, hb]⟩

/-- `copy_loop` never overwrites: a name already bound keeps its contents. -/
theorem copy_loop_preserves (files : List FileEntry) (dst : Dir) (p i : Nat)
    (name : String) (c : Nat) (h : dst.lookup name = some c) :
    (copy_loop files dst p i).1.lookup name = some c := by
  induction files generalizing dst p with
  | nil => exact h
  | cons f fs ih =>
    rw [copy_loop_cons]
    apply ih
    cases hs : (dst.lookup f.1).isSome
    · rw [if_neg Bool.false_ne_true]
      exact lookup_append_some dst [f] name c h
    · rw [if_pos rfl]
      exact h

/-- After `copy_loop`, every processed file name is present. -/
theorem copy_loop_covers (files : List FileEntry) (dst : Dir) (p i : Nat) :
    ∀ f ∈ files, ∃ c, (copy_loop files dst p i).1.lookup f.1 = some c := by
  induction files generalizing dst p with
  | nil => intro f hf; cases hf
  | cons g gs ih =>
    intro f hf
    rw [copy_loop_cons]
    rcases List.mem_cons.mp hf with heq | hf2
    · subst heq
      cases hs : (dst.lookup f.1).isSome
      · rw [if_neg Bool.false_ne_true]
        rcases lookup_append_new dst f with hnew | ⟨c, hc⟩
        · exact ⟨f.2, copy_loop_preserves gs (dst ++ [f]) (p + i) i f.1 f.2 hnew⟩
        · rw [hc] at hs
          cases hs
      · rw [if_pos rfl]
        obtain ⟨c, hc⟩ := Option.isSome_iff_exists.mp hs
        exact ⟨c, copy_loop_preserves gs dst (p + i) i f.1 c hc⟩
    · exact ih _ _ f hf2

/-- `copy_loop` over files that are all already present copies nothing. -/
theorem copy_loop_noop (files : List FileEntry) (dst : Dir) (p i : Nat)
    (h : ∀ f ∈ files, ∃ c, dst.lookup f.1 = some c) :
    (copy_loop files dst p i).1 = dst := by
  induction files generalizing dst p with
  | nil => rfl
  | cons g gs ih =>
    rw [copy_loop_cons]
    obtain ⟨c, hc⟩ := h g (List.mem_cons_self g gs)
    rw [if_pos (by rw [hc]; rfl)]
    exact ih dst (p + i) (fun f hf => h f (List.mem_cons_of_mem g hf))

/-- The progress values emitted by `copy_loop`, in closed form. -/
theorem copy_loop_events (files : List FileEntry) (dst : Dir) (p i : Nat) :
    (copy_loop files dst p i).2 =
      (List.range files.length).map (fun k => p + (k + 1) * i) := by
  induction files generalizing dst p with
  | nil => rfl
  | cons g gs ih =>
    rw [copy_loop_cons]
    simp only [List.length_cons, List.range_succ_eq_map, List.map_cons, List.map_map]
    rw [ih]
    congr 1
    · ring
    · apply List.map_congr_left
      intro a _
      simp only [Function.comp, Nat.succ_eq_add_one]
      ring

/-! ## Claim theorems -/

/-- Claim C1: frame codec round-trip.  For every command code below 255 and
every byte payload of at most 255 bytes, `_send` succeeds, `_recv` on the
exact bytes written succeeds without error, and the decoded frame's checksum
field equals the XOR-fold of its length, code and payload bytes. -/
theorem frame_roundtrip (code : Nat) (payload : List Nat)
    (h1 : code < 255) (h2 : payload.length ≤ 255) (h3 : ∀ b ∈ payload, b < 256) :
    ∃ buf frame,
      SerialMSP_send code payload = .ok buf ∧
      (SerialMSP_recv buf).1 = .ok frame ∧
      frame.crc = frame.calc_crc ∧
      frame.length = payload.length ∧ frame.msp_code = code ∧ frame.data = payload := by
  refine ⟨_, { msp_code := code, data := payload, length := payload.length,
               preamble := [36, 77, 60],
               crc := payload.foldl Nat.xor (Nat.xor payload.length code) },
          SerialMSP_send_ok code payload h1 (by omega) h3, ?_, rfl, rfl, rfl, rfl⟩
  have h := SerialMSP_recv_eval 36 77 60 code
    (payload.foldl Nat.xor (Nat.xor payload.length code)) payload
  rw [if_pos rfl] at h
  show (SerialMSP_recv (36 :: 77 :: 60 :: payload.length :: code ::
        (payload ++ [payload.foldl Nat.xor (Nat.xor payload.length code)]))).1 = _
  rw [h]

/-- Witness for C1 at code 70 and payload `[1, 2, 3]`. -/
theorem frame_roundtrip_witness :
    ∃ buf frame,
      SerialMSP_send 70 [1, 2, 3] = .ok buf ∧
      (SerialMSP_recv buf).1 = .ok frame ∧
      frame.crc = frame.calc_crc ∧
      frame.length = ([1, 2, 3] : List Nat).length ∧ frame.msp_code = 70 ∧
      frame.data = [1, 2, 3] :=
  frame_roundtrip 70 [1, 2, 3] (by omega) (by decide) (by decide)

/-- Claim C2 counterexample: `MSP_REBOOT_MSD` has `need_response = false`,
yet `send_command` still performs a response read after the write — `_recv`
is invoked and the six bytes of the pending response are consumed from the
transport stream. -/
theorem send_command_reads_despite_no_response_flag :
    MSP_REBOOT_MSD.need_response = false ∧
    (send_command MSP_REBOOT_MSD [36, 77, 62, 0, 68, 68]).recv_attempted = true ∧
    (send_command MSP_REBOOT_MSD [36, 77, 62, 0, 68, 68]).stream_after = [] :=
  ⟨rfl, rfl, rfl⟩

/-- Claim C2 amended: after the request frame is written, `send_command`
always attempts `_recv`, regardless of the need-response flag; when the flag
is false the call returns nothing (a receive failure is swallowed), and when
the flag is true the receive result determines the outcome. -/
theorem send_command_always_recv (command : MSPCommand) (stream buf : List Nat)
    (h : SerialMSP_send command.make_request.1
           (payload_prepare command.make_request.2 16) = .ok buf) :
    (send_command command stream).written = some buf ∧
    (send_command command stream).recv_attempted = true ∧
    (send_command command stream).stream_after = (SerialMSP_recv stream).2 ∧
    (command.need_response = false → (send_command command stream).outcome = .returnedNone) ∧
    (∀ e, command.need_response = true → (SerialMSP_recv stream).1 = .error e →
      (send_command command stream).outcome = .raised) ∧
    (∀ r, command.need_response = true → (SerialMSP_recv stream).1 = .ok r →
      (send_command command stream).outcome = .gotResponse r) := by
  rw [send_command_eval command stream buf h]
  refine ⟨rfl, rfl, rfl, fun hnr => ?_, fun e hnr he => ?_, fun r hnr hr => ?_⟩
  · rw [hnr]
  · rw [hnr, he]
  · rw [hnr, hr]

/-- Witness for the amended C2 at `MSP_DATAFLASH_ERASE` on an empty stream. -/
theorem send_command_always_recv_witness :
    (send_command MSP_DATAFLASH_ERASE []).recv_attempted = true ∧
    (send_command MSP_DATAFLASH_ERASE []).outcome = .returnedNone := by
  have h := send_command_always_recv MSP_DATAFLASH_ERASE [] [36, 77, 60, 0, 72, 72] rfl
  exact ⟨h.2.1, h.2.2.2.1 rfl⟩

/-- Claim C3 counterexample: with a poll stream that is empty on the first
call and non-empty from the second call on, the run still completes (progress
0, 20, 80, 100) and copies nothing — the orchestrator does not wait or
re-poll for log files. -/
theorem copy_phase_does_not_wait :
    (fun n => if n = 0 then ([] : List FileEntry) else [("LOG00001.BBL", 7)]) 1 ≠ [] ∧
    Background.run (fun n => if n = 0 then ([] : List FileEntry) else [("LOG00001.BBL", 7)]) [] =
      ([], [0, 20, 80, 100]) := by
  constructor
  · simp
  · rfl

/-- Claim C3 amended: the copy phase polls `iter_blackbox_paths` exactly
once; a run's behaviour depends only on that first poll.  If the single poll
is empty the copy phase is skipped (no file copied, no copy progress) and the
run proceeds to completion; copying (one progress emission per file) happens
only when that poll is non-empty. -/
theorem copy_phase_polls_once (polls : Nat → List FileEntry) (dst : Dir) :
    Background.run polls dst = Background.run (fun _ => polls 0) dst ∧
    (polls 0 = [] → Background.run polls dst = (dst, [0, 20, 80, 100])) ∧
    (polls 0 ≠ [] →
      ((copy_blackbox_files (polls 0) dst).2).length = (polls 0).length) := by
  refine ⟨rfl, fun h => ?_, fun h => ?_⟩
  · show ((copy_blackbox_files (polls 0) dst).1,
        0 :: 20 :: ((copy_blackbox_files (polls 0) dst).2 ++ [80, 100])) = (dst, [0, 20, 80, 100])
    rw [h]
    rfl
  · cases hp : polls 0 with
    | nil => exact absurd hp h
    | cons g gs =>
      show (copy_loop (g :: gs) dst 20 (60 / (g :: gs).length)).2.length = (g :: gs).length
      rw [copy_loop_events, List.length_map, List.length_range]

/-- Witness for the amended C3 with an always-empty poll stream. -/
theorem copy_phase_polls_once_witness :
    Background.run (fun _ => ([] : List FileEntry)) [] = ([], [0, 20, 80, 100]) :=
  (copy_phase_polls_once (fun _ => []) []).2.1 rfl

/-- Claim C4: over one full successful run the emitted progress values are
non-decreasing, never exceed 100, end at exactly 100, and the value emitted
after copying `k` of `n` files equals `20 + (60 / n) * k` (floor division). -/
theorem run_progress (paths : List FileEntry) (dst : Dir) :
    ((Background.run (fun _ => paths) dst).2).Pairwise (· ≤ ·) ∧
    (∀ x ∈ (Background.run (fun _ => paths) dst).2, x ≤ 100) ∧
    ((Background.run (fun _ => paths) dst).2).getLast? = some 100 ∧
    (∀ k, 0 < k → k ≤ paths.length →
      ((copy_blackbox_files paths dst).2)[k - 1]? =
        some (20 + 60 / paths.length * k)) := by
  have hev : (copy_blackbox_files paths dst).2 =
      (List.range paths.length).map (fun j => 20 + (j + 1) * (60 / paths.length)) := by
    cases paths with
    | nil => rfl
    | cons g gs => exact copy_loop_events (g :: gs) dst 20 (60 / (g :: gs).length)
  have hrun : (Background.run (fun _ => paths) dst).2 =
      0 :: 20 :: ((copy_blackbox_files paths dst).2 ++ [80, 100]) := rfl
  have hbound : ∀ x ∈ (copy_blackbox_files paths dst).2, 20 ≤ x ∧ x ≤ 80 := by
    rw [hev]
    intro x hx
    obtain ⟨j, hj, rfl⟩ := List.mem_map.mp hx
    have hjlt : j < paths.length := List.mem_range.mp hj
    have h1 : (j + 1) * (60 / paths.length) ≤ paths.length * (60 / paths.length) :=
      Nat.mul_le_mul_right _ (by omega)
    have h2 : paths.length * (60 / paths.length) ≤ 60 := by
      rw [Nat.mul_comm]
      exact Nat.div_mul_le_self 60 paths.length
    omega
  have htail : ∀ y ∈ ([80, 100] : List Nat), 80 ≤ y ∧ y ≤ 100 := by
    intro y hy
    rcases List.mem_cons.mp hy with rfl | hy
    · omega
    rcases List.mem_singleton.mp hy with rfl
    omega
  refine ⟨?_, ?_, ?_, ?_⟩
  · rw [hrun]
    refine List.pairwise_cons.mpr ⟨fun y _ => Nat.zero_le y, List.pairwise_cons.mpr ⟨?_, ?_⟩⟩
    · intro y hy
      rcases List.mem_append.mp hy with h | h
      · exact (hbound y h).1
      · exact le_trans (by omega) (htail y h).1
    · refine List.pairwise_append.mpr ⟨?_, ?_, ?_⟩
      · rw [hev]
        refine List.Pairwise.map _ ?_ (List.pairwise_lt_range paths.length)
        intro a b hab
        exact Nat.add_le_add_left (Nat.mul_le_mul_right _ (by omega)) 20
      · exact List.pairwise_cons.mpr ⟨fun y hy => by
          rcases List.mem_singleton.mp hy with rfl; omega, List.pairwise_singleton _ _⟩
      · intro x hx y hy
        exact le_trans (hbound x hx).2 (htail y hy).1
  · rw [hrun]
    intro x hx
    rcases List.mem_cons.mp hx with rfl | hx
    · omega
    rcases List.mem_cons.mp hx with rfl | hx
    · omega
    rcases List.mem_append.mp hx with h | h
    · exact le_trans (hbound x h).2 (by omega)
    · exact (htail x h).2
  · rw [hrun]
    rw [show (0 :: 20 :: ((copy_blackbox_files paths dst).2 ++ [80, 100])) =
        ((0 :: 20 :: (copy_blackbox_files paths dst).2) ++ [80, 100]) by simp]
    rw [List.getLast?_append_of_ne_nil _ (by simp)]
    rfl
  · intro k hk1 hk2
    rw [hev, List.getElem?_map, List.getElem?_range (by omega : k - 1 < paths.length)]
    have hkk : k - 1 + 1 = k := by omega
    simp only [Option.map_some']
    rw [hkk, Nat.mul_comm]

/-- Witness for C4: two files, second copy-phase emission is
`20 + 60 / 2 * 2 = 80`. -/
theorem run_progress_witness :
    ((copy_blackbox_files [("L1.bbl", 1), ("L2.bbl", 2)] []).2)[2 - 1]? =
      some (20 + 60 / ([("L1.bbl", 1), ("L2.bbl", 2)] : List FileEntry).length * 2) :=
  (run_progress [("L1.bbl", 1), ("L2.bbl", 2)] []).2.2.2 2 (by omega) (by decide)

/-- Claim C5 counterexample: the wire frame written for `MSP_REBOOT_MSD` is
`$M< | 02 | 68 | 02 00 | 68` — its payload is the two bytes `[2, 0]`
produced by `payload_prepare`, not the single byte `2` (whose frame would be
`$M< | 01 | 68 | 02 | 71`). -/
theorem reboot_msd_payload_not_one_byte :
    (send_command MSP_REBOOT_MSD []).written = some [36, 77, 60, 2, 68, 2, 0, 68] ∧
    (send_command MSP_REBOOT_MSD []).written ≠ some [36, 77, 60, 1, 68, 2, 71] := by
  exact ⟨rfl, by decide⟩

/-- Claim C5 amended: the wire request frame for `MSP_REBOOT_MSD` carries
code 68 and the two-byte little-endian payload `[2, 0]`, because
`payload_prepare` expands every request value to two little-endian bytes
uniformly, regardless of the value's magnitude. -/
theorem reboot_msd_wire_format (stream : List Nat) (vals : List Nat) :
    (send_command MSP_REBOOT_MSD stream).written = some [36, 77, 60, 2, 68, 2, 0, 68] ∧
    payload_prepare vals 16 =
      (vals.map (fun v => [v &&& 255, (v >>> 8) &&& 255])).flatten := by
  exact ⟨(send_command_always_recv MSP_REBOOT_MSD stream [36, 77, 60, 2, 68, 2, 0, 68] rfl).1,
         rfl⟩

/-- Claim C6: `_send` enforces its preconditions — a code of 255 or more
fails the assertion, a payload longer than 255 bytes fails when its length is
stored into the length byte, and every code below 255 with a byte payload of
at most 255 bytes succeeds. -/
theorem send_preconditions (code : Nat) (payload : List Nat) (hb : ∀ b ∈ payload, b < 256) :
    (255 ≤ code → SerialMSP_send code payload = .error .assertionFailed) ∧
    (code < 255 → 255 < payload.length → SerialMSP_send code payload = .error .byteOutOfRange) ∧
    (code < 255 → payload.length ≤ 255 → ∃ buf, SerialMSP_send code payload = .ok buf) := by
  refine ⟨fun h => ?_, fun h1 h2 => ?_,
          fun h1 h2 => ⟨_, SerialMSP_send_ok code payload h1 (by omega) hb⟩⟩
  · unfold SerialMSP_send
    rw [if_neg (by omega)]
  · unfold SerialMSP_send
    rw [if_pos h1, if_neg (by omega)]

/-- Witness for C6: code 255 fails, a 256-byte payload fails, and code 1 with
payload `[5]` succeeds. -/
theorem send_preconditions_witness :
    SerialMSP_send 255 [] = .error .assertionFailed ∧
    SerialMSP_send 1 (List.replicate 256 0) = .error .byteOutOfRange ∧
    ∃ buf, SerialMSP_send 1 [5] = .ok buf := by
  have hrep : ∀ b ∈ List.replicate 256 0, b < 256 := by
    intro b hb
    rw [List.eq_of_mem_replicate hb]
    omega
  have hnil : ∀ b ∈ ([] : List Nat), b < 256 := by
    intro b hb
    cases hb
  have hlen : 255 < (List.replicate (256 : Nat) (0 : Nat)).length := by
    rw [List.length_replicate]
    omega
  exact ⟨(send_preconditions 255 [] hnil).1 (le_refl 255),
         (send_preconditions 1 (List.replicate 256 0) hrep).2.1 (by omega) hlen,
         (send_preconditions 1 [5] (by decide)).2.2 (by omega) (by decide)⟩

/-- Claim C7: corruption detection.  A stream holding a valid frame decodes
successfully; flipping any single bit (position `k < 8`) of its checksum byte
makes `_recv` fail with a checksum mismatch, the recomputed value being the
XOR-fold of length, code and payload. -/
theorem checksum_bitflip_detected (p1 p2 p3 code k : Nat) (data : List Nat)
    (hk : k < 8) (hcode : code < 256) (hdata : ∀ b ∈ data, b < 256)
    (hlen : data.length ≤ 255) :
    (SerialMSP_recv (p1 :: p2 :: p3 :: data.length :: code ::
        (data ++ [data.foldl Nat.xor (Nat.xor data.length code)]))).1 =
      .ok { msp_code := code, data := data, length := data.length, preamble := [p1, p2, p3],
            crc := data.foldl Nat.xor (Nat.xor data.length code) } ∧
    (SerialMSP_recv (p1 :: p2 :: p3 :: data.length :: code ::
        (data ++ [Nat.xor (data.foldl Nat.xor (Nat.xor data.length code)) (2 ^ k)]))).1 =
      .error (.crcMismatch (data.foldl Nat.xor (Nat.xor data.length code))
               (Nat.xor (data.foldl Nat.xor (Nat.xor data.length code)) (2 ^ k))) := by
  constructor
  · rw [SerialMSP_recv_eval, if_pos rfl]
  · rw [SerialMSP_recv_eval, if_neg ?hne]
    case hne =>
      exact fun h => xor_two_pow_ne _ k h

/-- Witness for C7 at code 68, payload `[1, 2]`, flipping bit 0. -/
theorem checksum_bitflip_detected_witness :
    (SerialMSP_recv (36 :: 77 :: 62 :: ([1, 2] : List Nat).length :: 68 ::
        ([1, 2] ++ [[1, 2].foldl Nat.xor (Nat.xor ([1, 2] : List Nat).length 68)]))).1 =
      .ok { msp_code := 68, data := [1, 2], length := ([1, 2] : List Nat).length,
            preamble := [36, 77, 62],
            crc := [1, 2].foldl Nat.xor (Nat.xor ([1, 2] : List Nat).length 68) } ∧
    (SerialMSP_recv (36 :: 77 :: 62 :: ([1, 2] : List Nat).length :: 68 ::
        ([1, 2] ++
          [Nat.xor ([1, 2].foldl Nat.xor (Nat.xor ([1, 2] : List Nat).length 68)) (2 ^ 0)]))).1 =
      .error (.crcMismatch ([1, 2].foldl Nat.xor (Nat.xor ([1, 2] : List Nat).length 68))
               (Nat.xor ([1, 2].foldl Nat.xor (Nat.xor ([1, 2] : List Nat).length 68)) (2 ^ 0))) :=
  checksum_bitflip_detected 36 77 62 68 0 [1, 2] (by omega) (by omega) (by decide) (by simp)

/-- Claim C8: `MSP_DATAFLASH_SUMMARY` decode parses `u8` flags then three
little-endian `u32` fields, with `ready = flags & 1 != 0` and
`supported = flags & 2 != 0`; flags `0x03` gives both true, flags `0x00`
gives both false. -/
theorem dataflash_summary_decode (rs s0 s1 s2 s3 t0 t1 t2 t3 u0 u1 u2 u3 : Nat) :
    MSP_DATAFLASH_SUMMARY.make_response [rs, s0, s1, s2, s3, t0, t1, t2, t3, u0, u1, u2, u3] =
      some { ready := rs &&& 1 != 0, supported := rs &&& 2 != 0,
             sectors := le_u32 s0 s1 s2 s3, total_size := le_u32 t0 t1 t2 t3,
             used_size := le_u32 u0 u1 u2 u3 } ∧
    (MSP_DATAFLASH_SUMMARY.make_response
        [3, s0, s1, s2, s3, t0, t1, t2, t3, u0, u1, u2, u3]).map
        (fun r => (r.ready, r.supported)) = some (true, true) ∧
    (MSP_DATAFLASH_SUMMARY.make_response
        [0, s0, s1, s2, s3, t0, t1, t2, t3, u0, u1, u2, u3]).map
        (fun r => (r.ready, r.supported)) = some (false, false) :=
  ⟨rfl, rfl, rfl⟩

/-- Claim C9: the copy phase never overwrites an existing destination file,
and running it a second time over the same sources and destination leaves
every destination file unchanged. -/
theorem copy_idempotent (paths : List FileEntry) (dst : Dir) :
    (∀ name c, dst.lookup name = some c →
      ((copy_blackbox_files paths dst).1).lookup name = some c) ∧
    (copy_blackbox_files paths ((copy_blackbox_files paths dst).1)).1 =
      (copy_blackbox_files paths dst).1 := by
  cases paths with
  | nil => exact ⟨fun name c h => h, rfl⟩
  | cons g gs =>
    constructor
    · intro name c h
      exact copy_loop_preserves (g :: gs) dst 20 _ name c h
    · show (copy_loop (g :: gs) ((copy_loop (g :: gs) dst 20 (60 / (g :: gs).length)).1) 20
          (60 / (g :: gs).length)).1 = _
      apply copy_loop_noop
      intro f hf
      exact copy_loop_covers (g :: gs) dst 20 (60 / (g :: gs).length) f hf

/-- Witness for C9 on a concrete source and destination. -/
theorem copy_idempotent_witness :
    ((copy_blackbox_files [("A.bbl", 5)] [("B.bbl", 9)]).1).lookup "B.bbl" = some 9 ∧
    (copy_blackbox_files [("A.bbl", 5)]
        ((copy_blackbox_files [("A.bbl", 5)] [("B.bbl", 9)]).1)).1 =
      (copy_blackbox_files [("A.bbl", 5)] [("B.bbl", 9)]).1 := by
  have h := copy_idempotent [("A.bbl", 5)] [("B.bbl", 9)]
  exact ⟨h.1 "B.bbl" 9 (by decide), h.2⟩

/-- Claim C10: `_recv` reads the 3 preamble bytes but never validates them —
any stream whose first 3 bytes are arbitrary and whose trailing byte equals
the XOR-fold of its length, code and payload decodes successfully into the
corresponding frame. -/
theorem recv_ignores_preamble (p1 p2 p3 code : Nat) (data : List Nat) :
    (SerialMSP_recv (p1 :: p2 :: p3 :: data.length :: code ::
        (data ++ [data.foldl Nat.xor (Nat.xor data.length code)]))).1 =
      .ok { msp_code := code, data := data, length := data.length,
            preamble := [p1, p2, p3],
            crc := data.foldl Nat.xor (Nat.xor data.length code) } := by
  rw [SerialMSP_recv_eval, if_pos rfl]

end BlackboxFetch
